import Mathlib

/-!
Verification of the Microsoft Family Safety Home Assistant integration's
refresh coordinator (`custom_components/microsoft_family_safety/coordinator.py`).

The coordinator's Python dictionaries are modelled as insertion-ordered
association lists (Python `dict` semantics: assignment to an existing key
updates the value in place preserving position, assignment to a fresh key
appends).  Remote I/O is modelled by an explicit input describing what the
remote client did (`FetchResult`, the `remoteOk` flags of the mutation
operations) and an explicit output trace of remote calls (`RemoteCall`).
-/

namespace FamilySafety

/-- Insertion-ordered association list standing for a Python `dict`. -/
abbrev AList (V : Type) : Type := List (String × V)

/-- Python `d[k] = v`: update the existing entry in place, else append. -/
def alistInsert {V : Type} : AList V → String → V → AList V
  | [], k, v => [(k, v)]
  | p :: t, k, v => if p.1 == k then (k, v) :: t else p :: alistInsert t k v

/-- Python `k in d`. -/
def alistHasKey {V : Type} (m : AList V) (k : String) : Bool :=
  m.any (fun p => p.1 == k)

/-- Python `d.get(k)`. -/
def alistLookup {V : Type} (m : AList V) (k : String) : Option V :=
  (m.find? (fun p => p.1 == k)).map Prod.snd

/-- Bool-valued list-infix test, used to model Python's `in` on strings. -/
def listInfixB (needle : List Char) : List Char → Bool
  | [] => needle.isEmpty
  | c :: t => needle.isPrefixOf (c :: t) || listInfixB needle t

/-- Python `needle in hay` on strings. -/
def strContains (hay needle : String) : Bool :=
  listInfixB needle.data hay.data

/-- Python `s.lower()` (character-wise lowering, as `String.toLower` does). -/
def strLower (s : String) : String :=
  ⟨s.data.map Char.toLower⟩

/-! ## Remote-client objects (the external collaborator's data, spec section 6) -/

/-- A `pyfamilysafety` application object as consumed by the coordinator. -/
structure RemoteApp where
  app_id : String
  name : String
  blocked : Bool
deriving DecidableEq, Repr

/-- A `pyfamilysafety` device object as consumed by the coordinator. -/
structure RemoteDevice where
  device_id : String
  device_name : String
  device_class : String
  device_make : String
  device_model : String
  os_name : String
  today_time_used : Nat
  last_seen : String
  blocked : Bool
deriving DecidableEq, Repr

/-- A `pyfamilysafety` account object as consumed by the coordinator.
The monetary balance is abstracted to an integer amount. -/
structure RemoteAccount where
  user_id : String
  first_name : String
  surname : String
  profile_picture : String
  today_screentime_usage : Nat
  average_screentime_usage : Nat
  account_balance : Option Int
  account_currency : String
  devices : List RemoteDevice
  applications : List RemoteApp
deriving DecidableEq, Repr

/-- Modelled from the spec: the remote client's override target enum
(`pyfamilysafety.enum.OverrideTarget`, not part of this repository).  The
integration references `WINDOWS`, `XBOX` and `MOBILE`; `ALL` is the remote
client's catch-all target, never produced by this integration. -/
inductive OverrideTarget where
  | WINDOWS
  | XBOX
  | MOBILE
  | ALL
deriving DecidableEq, Repr

/-- Modelled from the spec: the remote client's override mode enum
(`pyfamilysafety.enum.OverrideType`, not part of this repository). -/
inductive OverrideType where
  | UNTIL
  | CANCEL
deriving DecidableEq, Repr

/-! ## Snapshot records (the normalized dictionaries built by `_async_update_data`) -/

/-- Entry of the `applications` list of an account record. -/
structure AppData where
  app_id : String
  app_name : String
  blocked : Bool
deriving DecidableEq, Repr

/-- The per-account dictionary stored in `accounts_data`. -/
structure AccountData where
  user_id : String
  first_name : String
  surname : String
  profile_picture : String
  today_screentime_usage : Nat
  average_screentime_usage : Nat
  account_balance : Option Int
  account_currency : String
  devices : List String
  applications : List AppData
deriving DecidableEq, Repr

/-- The per-device dictionary stored in `devices_data`. -/
structure DeviceData where
  device_id : String
  device_name : String
  device_class : String
  device_make : String
  device_model : String
  os_name : String
  today_time_used : Nat
  last_seen : String
  blocked : Bool
  account_id : String
deriving DecidableEq, Repr

/-- The dictionary returned by a successful `_async_update_data`. -/
structure Snapshot where
  accounts : AList AccountData
  devices : AList DeviceData
deriving DecidableEq, Repr

/-! ## Coordinator state -/

/-- The mutable state of `FamilySafetyDataUpdateCoordinator`: `self.api`
(abstracted to whether it is initialized), the handle tables
`self._accounts` and `self._devices`, the `self._is_retrying_auth` flag and
the cached `self.data` managed by the host's update-coordinator base class. -/
structure Coordinator where
  apiSome : Bool
  accTable : AList RemoteAccount
  devTable : AList RemoteDevice
  is_retrying_auth : Bool
  data : Option Snapshot
deriving DecidableEq, Repr

/-- A fresh coordinator as built by `__init__`. -/
def initCoordinator : Coordinator :=
  { apiSome := false, accTable := [], devTable := [], is_retrying_auth := false, data := none }

/-- What `await self.api.update()` did on one refresh:
`success accs` — returned normally leaving `api.accounts = accs`;
`successNone` — returned normally but left `api.accounts` as `None`;
`typeErrorNoneIter aft` — raised the upstream
TypeError whose text contains the NoneType-not-iterable message, leaving
`api.accounts` as `aft` (`none` standing for Python `None`);
`typeErrorOther` — raised a TypeError with any other message;
`httpError msg` — raised `HttpException` rendering as `msg`;
`otherError msg` — raised any other exception rendering as `msg`. -/
inductive FetchResult where
  | success (accs : List RemoteAccount)
  | successNone
  | typeErrorNoneIter (aft : Option (List RemoteAccount))
  | typeErrorOther (msg : String)
  | httpError (msg : String)
  | otherError (msg : String)

/-- One outbound interaction with the remote client or the host scheduler. -/
inductive RemoteCall where
  | create
  | update
  | overrideDevice (target : OverrideTarget) (override : OverrideType) (valid_until : Option Nat)
  | approvePendingCall (request_id : String) (extension_time : Nat)
  | denyPendingCall (request_id : String)
  | requestRefresh
deriving DecidableEq, Repr

/-- How one call of `_async_update_data` ended: a published snapshot, a
raised `ConfigEntryAuthFailed`, or a raised `UpdateFailed`. -/
inductive RefreshOutcome where
  | published (snap : Snapshot)
  | authRequired (code : String)
  | updateFailed (msg : String)
deriving DecidableEq, Repr

/-- `const.ERROR_AUTH_FAILED`. -/
def ERROR_AUTH_FAILED : String := "auth_failed"

/-- `const.ERROR_TOKEN_EXPIRED`. -/
def ERROR_TOKEN_EXPIRED : String := "token_expired"

/-! ## Snapshot normalization (`_async_update_data`, success path) -/

/-- One entry of `accounts_data[account_id]["applications"]`. -/
def mkAppData (a : RemoteApp) : AppData :=
  { app_id := a.app_id, app_name := a.name, blocked := a.blocked }

/-- The `device_data` dictionary built for one device of `account_id`. -/
def mkDeviceData (account_id : String) (d : RemoteDevice) : DeviceData :=
  { device_id := d.device_id, device_name := d.device_name, device_class := d.device_class
    device_make := d.device_make, device_model := d.device_model, os_name := d.os_name
    today_time_used := d.today_time_used, last_seen := d.last_seen, blocked := d.blocked
    account_id := account_id }

/-- The `accounts_data[account_id]` dictionary for one account.  The source
appends the device ids and application entries inside its per-account loops;
the resulting lists are precomputed here, in the same order. -/
def mkAccountData (a : RemoteAccount) : AccountData :=
  { user_id := a.user_id, first_name := a.first_name, surname := a.surname
    profile_picture := a.profile_picture
    today_screentime_usage := a.today_screentime_usage
    average_screentime_usage := a.average_screentime_usage
    account_balance := a.account_balance, account_currency := a.account_currency
    devices := a.devices.map (fun d => d.device_id)
    applications := a.applications.map mkAppData }

/-- The four dictionaries threaded through the account loop of
`_async_update_data`: the snapshot under construction (`accounts_data`,
`devices_data`) and the coordinator's handle tables (`self._accounts`,
`self._devices`). -/
structure BuildState where
  accounts_data : AList AccountData
  devices_data : AList DeviceData
  accTable : AList RemoteAccount
  devTable : AList RemoteDevice

/-- Body of `for device in account.devices`: store the device dictionary in
`devices_data` and the live handle in `self._devices`. -/
def addDevice (account_id : String) (st : BuildState) (d : RemoteDevice) : BuildState :=
  { st with
    devices_data := alistInsert st.devices_data d.device_id (mkDeviceData account_id d)
    devTable := alistInsert st.devTable d.device_id d }

/-- Body of `for account in self.api.accounts`: store the account dictionary
and the live handle, then process the account's devices. -/
def processAccount (st : BuildState) (a : RemoteAccount) : BuildState :=
  a.devices.foldl (addDevice a.user_id)
    { st with
      accounts_data := alistInsert st.accounts_data a.user_id (mkAccountData a)
      accTable := alistInsert st.accTable a.user_id a }

/-- The whole account loop, starting from empty `accounts_data` and
`devices_data` and the coordinator's existing (never cleared) handle tables. -/
def buildSnapshot (accs : List RemoteAccount) (accT : AList RemoteAccount)
    (devT : AList RemoteDevice) : BuildState :=
  accs.foldl processAccount
    { accounts_data := [], devices_data := [], accTable := accT, devTable := devT }

/-- The `return {"accounts": ..., "devices": ...}` path: build the snapshot,
commit the handle tables, and let the host base class store the result in
`self.data`. -/
def publish (c : Coordinator) (accs : List RemoteAccount) : Coordinator × RefreshOutcome :=
  let st := buildSnapshot accs c.accTable c.devTable
  let snap : Snapshot := { accounts := st.accounts_data, devices := st.devices_data }
  ({ c with accTable := st.accTable, devTable := st.devTable, data := some snap },
   .published snap)

/-- `"401" in str(err) or "authentication" in str(err).lower()`. -/
def isAuthErrorMsg (msg : String) : Bool :=
  strContains msg "401" || strContains (strLower msg) "authentication"

/-- The body of `_async_update_data` after the API client exists: dispatch on
what `self.api.update()` did.  The NoneType-iterable TypeError and a `None`
account collection degrade to an empty account list; an `HttpException`
whose text looks like an authentication failure escalates to
`ConfigEntryAuthFailed` once (setting `_is_retrying_auth`) and to
`UpdateFailed` while the flag is set; everything else is `UpdateFailed`. -/
def updateDataCore (c : Coordinator) (fetch : FetchResult) : Coordinator × RefreshOutcome :=
  match fetch with
  | .success accs => publish c accs
  | .successNone => publish c []
  | .typeErrorNoneIter aft =>
      match aft with
      | none => publish c []
      | some accs => publish c accs
  | .typeErrorOther msg => (c, .updateFailed ("Unexpected error: " ++ msg))
  | .httpError msg =>
      if isAuthErrorMsg msg then
        if c.is_retrying_auth then
          (c, .updateFailed ("Authentication failed: " ++ msg))
        else
          ({ c with is_retrying_auth := true }, .authRequired ERROR_TOKEN_EXPIRED)
      else
        (c, .updateFailed ("Error communicating with API: " ++ msg))
  | .otherError msg => (c, .updateFailed ("Unexpected error: " ++ msg))

/-- One full `_async_update_data` call, including the `if self.api is None:
await self._async_setup_api()` prologue.  `setupOk` records whether
`FamilySafety.create` succeeds when it is attempted; a failing `create`
raises `ConfigEntryAuthFailed(ERROR_AUTH_FAILED)` and leaves `self.api` as
`None`.  The third component is the trace of outbound remote calls. -/
def refresh (c : Coordinator) (setupOk : Bool) (fetch : FetchResult) :
    Coordinator × RefreshOutcome × List RemoteCall :=
  if c.apiSome then
    ((updateDataCore c fetch).1, (updateDataCore c fetch).2, [.update])
  else if setupOk then
    ((updateDataCore { c with apiSome := true } fetch).1,
     (updateDataCore { c with apiSome := true } fetch).2, [.create, .update])
  else
    (c, .authRequired ERROR_AUTH_FAILED, [.create])

/-- `async_cleanup`: clear both handle tables and drop the API client. -/
def async_cleanup (c : Coordinator) : Coordinator :=
  { c with accTable := [], devTable := [], apiSome := false }

/-! ## Mutation operations -/

/-- How a mutation operation ended: returned normally, raised `ValueError`,
or re-raised the remote call's exception. -/
inductive MutOutcome where
  | ok
  | valueError (msg : String)
  | remoteError
deriving DecidableEq, Repr

/-- `async_block_platform`.  `now` abstracts `datetime.now()` (minutes);
`remoteOk` records whether `account.override_device` succeeds when called.
A falsy `duration_minutes` (absent or zero) leaves `valid_until` as `None`. -/
def async_block_platform (c : Coordinator) (account_id : String)
    (platform : OverrideTarget) (duration_minutes : Option Nat) (now : Nat)
    (remoteOk : Bool) : MutOutcome × List RemoteCall :=
  if alistHasKey c.accTable account_id then
    let valid_until : Option Nat :=
      match duration_minutes with
      | some n => if n ≠ 0 then some (now + n) else none
      | none => none
    if remoteOk then
      (.ok, [.overrideDevice platform .UNTIL valid_until, .requestRefresh])
    else
      (.remoteError, [.overrideDevice platform .UNTIL valid_until])
  else
    (.valueError ("Account " ++ account_id ++ " not found"), [])

/-- `async_unblock_platform`: cancel the override with `valid_until = now`. -/
def async_unblock_platform (c : Coordinator) (account_id : String)
    (platform : OverrideTarget) (now : Nat) (remoteOk : Bool) :
    MutOutcome × List RemoteCall :=
  if alistHasKey c.accTable account_id then
    if remoteOk then
      (.ok, [.overrideDevice platform .CANCEL (some now), .requestRefresh])
    else
      (.remoteError, [.overrideDevice platform .CANCEL (some now)])
  else
    (.valueError ("Account " ++ account_id ++ " not found"), [])

/-- `async_approve_request`: only checks that the API client exists. -/
def async_approve_request (c : Coordinator) (request_id : String)
    (extension_time : Nat) (remoteOk : Bool) : MutOutcome × List RemoteCall :=
  if c.apiSome then
    if remoteOk then
      (.ok, [.approvePendingCall request_id extension_time, .requestRefresh])
    else
      (.remoteError, [.approvePendingCall request_id extension_time])
  else
    (.valueError "API not initialized", [])

/-- `async_deny_request`: only checks that the API client exists. -/
def async_deny_request (c : Coordinator) (request_id : String)
    (remoteOk : Bool) : MutOutcome × List RemoteCall :=
  if c.apiSome then
    if remoteOk then
      (.ok, [.denyPendingCall request_id, .requestRefresh])
    else
      (.remoteError, [.denyPendingCall request_id])
  else
    (.valueError "API not initialized", [])

/-- Whether a call is `async_request_refresh`. -/
def isRefreshReq : RemoteCall → Bool
  | .requestRefresh => true
  | _ => false

/-- Number of refresh requests in a mutation's call trace. -/
def countRefreshRequests (l : List RemoteCall) : Nat :=
  l.countP isRefreshReq

/-! ## Platform derivation -/

/-- `_get_platform_from_os`: case-insensitive substring matching, in the
fixed order windows, xbox, android/ios. -/
def get_platform_from_os (os_name : String) : Option OverrideTarget :=
  let os_lower := strLower os_name
  if strContains os_lower "windows" then some .WINDOWS
  else if strContains os_lower "xbox" then some .XBOX
  else if strContains os_lower "android" || strContains os_lower "ios" then some .MOBILE
  else none

/-- Python `set.add`, on a list carrying set semantics. -/
def setAdd (l : List OverrideTarget) (p : OverrideTarget) : List OverrideTarget :=
  if p ∈ l then l else l ++ [p]

/-- Loop body of `get_platforms_for_account`. -/
def addPlatform (account_id : String) (acc : List OverrideTarget)
    (kv : String × DeviceData) : List OverrideTarget :=
  if kv.2.account_id == account_id then
    match get_platform_from_os kv.2.os_name with
    | some plat => setAdd acc plat
    | none => acc
  else acc

/-- `get_platforms_for_account`: collect the platforms of the account's
devices from the cached snapshot; the empty set before the first publish.
The Python `set` is carried as a duplicate-free list. -/
def get_platforms_for_account (c : Coordinator) (account_id : String) :
    List OverrideTarget :=
  match c.data with
  | none => []
  | some snap => snap.devices.foldl (addPlatform account_id) []

/-! ## Derived views used in the statements -/

/-- The snapshot a successful `_async_update_data` publishes for a given
effective account list. -/
def builtSnap (c : Coordinator) (accs : List RemoteAccount) : Snapshot :=
  { accounts := (buildSnapshot accs c.accTable c.devTable).accounts_data
    devices := (buildSnapshot accs c.accTable c.devTable).devices_data }

/-- The account list the success path of `_async_update_data` iterates
over: the fetched list, with a `None` collection (or the NoneType-iterable
TypeError) degraded to the empty list; `none` when the refresh raises. -/
def effectiveAccounts : FetchResult → Option (List RemoteAccount)
  | .success accs => some accs
  | .successNone => some []
  | .typeErrorNoneIter none => some []
  | .typeErrorNoneIter (some accs) => some accs
  | .typeErrorOther _ => none
  | .httpError _ => none
  | .otherError _ => none

/-! ## Concrete sample data (used to instantiate the theorems) -/

/-- A Windows device reporting 59000 ms of usage. -/
def sampleDevice1 : RemoteDevice :=
  { device_id := "dev1", device_name := "Desktop", device_class := "Windows"
    device_make := "Contoso", device_model := "T1", os_name := "Windows 11"
    today_time_used := 59000, last_seen := "2024-01-01T00:00:00", blocked := false }

/-- An Android device. -/
def sampleDevice2 : RemoteDevice :=
  { device_id := "dev2", device_name := "Phone", device_class := "Mobile"
    device_make := "Contoso", device_model := "P9", os_name := "Android"
    today_time_used := 120, last_seen := "2024-01-02T00:00:00", blocked := true }

/-- An account whose screen-time usage arrives as 90000 ms. -/
def sampleAccount1 : RemoteAccount :=
  { user_id := "acc1", first_name := "Ada", surname := "L", profile_picture := "pic"
    today_screentime_usage := 90000, average_screentime_usage := 45000
    account_balance := some 5, account_currency := "USD"
    devices := [sampleDevice1, sampleDevice2], applications := [] }

/-- A second account with no devices. -/
def sampleAccount2 : RemoteAccount :=
  { user_id := "acc2", first_name := "Bob", surname := "M", profile_picture := ""
    today_screentime_usage := 0, average_screentime_usage := 0
    account_balance := none, account_currency := "USD"
    devices := [], applications := [] }

/-- A coordinator whose API client is initialized and that has not yet
published a snapshot. -/
def sampleCoordinator : Coordinator := { initCoordinator with apiSome := true }

/-- The coordinator state after one successful refresh fetching
`sampleAccount1`. -/
def sampleRefresh : Coordinator × RefreshOutcome × List RemoteCall :=
  refresh sampleCoordinator true (.success [sampleAccount1])

/-- The snapshot published by `sampleRefresh`. -/
def sampleSnap : Snapshot :=
  sampleRefresh.1.data.getD { accounts := [], devices := [] }

/-- An initialized coordinator whose auth-retry flag is already set. -/
def retryingCoordinator : Coordinator :=
  { apiSome := true, accTable := [], devTable := [], is_retrying_auth := true, data := none }

/-- An initialized coordinator holding stale handle-table entries from an
earlier refresh. -/
def staleCoordinator : Coordinator :=
  { apiSome := true, accTable := [("stale", sampleAccount2)]
    devTable := [("staledev", sampleDevice2)], is_retrying_auth := false, data := none }

/-! ## Association-list lemmas -/

theorem alistHasKey_cons {V : Type} (p : String × V) (t : AList V) (k : String) :
    alistHasKey (p :: t) k = (p.1 == k || alistHasKey t k) := rfl

theorem alistHasKey_insert {V : Type} (m : AList V) (k k' : String) (v : V) :
    alistHasKey (alistInsert m k v) k' = (k' == k || alistHasKey m k') := by
  induction m with
  | nil =>
      simp only [alistInsert, alistHasKey, List.any_cons, List.any_nil, Bool.or_false]
      by_cases h : k = k' <;> simp [h, beq_iff_eq, Ne.symm]
  | cons p t ih =>
      simp only [alistInsert]
      by_cases h : p.1 = k
      · simp only [h, beq_self_eq_true, if_true, alistHasKey_cons]
        by_cases h' : k' = k <;> simp [h', beq_iff_eq, Ne.symm]
      · simp only [beq_iff_eq, h, if_false, alistHasKey_cons, ih]
        cases hk : (k' == k) <;> simp

theorem mem_alistInsert {V : Type} {m : AList V} {k : String} {v : V}
    {x : String × V} (h : x ∈ alistInsert m k v) : x ∈ m ∨ x = (k, v) := by
  induction m with
  | nil =>
      simp only [alistInsert, List.mem_singleton] at h
      exact Or.inr h
  | cons p t ih =>
      simp only [alistInsert] at h
      by_cases hpk : p.1 = k
      · simp only [beq_iff_eq, hpk, if_true, List.mem_cons] at h
        rcases h with h | h
        · exact Or.inr h
        · exact Or.inl (List.mem_cons_of_mem _ h)
      · simp only [beq_iff_eq, hpk, if_false, List.mem_cons] at h
        rcases h with h | h
        · exact Or.inl (List.mem_cons.mpr (Or.inl h))
        · rcases ih h with h' | h'
          · exact Or.inl (List.mem_cons_of_mem _ h')
          · exact Or.inr h'

/-! ## Device-loop lemmas -/

theorem addDevice_accounts (aid : String) (st : BuildState) (d : RemoteDevice) :
    (addDevice aid st d).accounts_data = st.accounts_data := rfl

theorem addDevice_accTable (aid : String) (st : BuildState) (d : RemoteDevice) :
    (addDevice aid st d).accTable = st.accTable := rfl

theorem devfold_accounts (aid : String) (ds : List RemoteDevice) (st : BuildState) :
    (ds.foldl (addDevice aid) st).accounts_data = st.accounts_data := by
  induction ds generalizing st with
  | nil => rfl
  | cons d t ih => simpa [List.foldl_cons] using ih (addDevice aid st d)

theorem devfold_accTable (aid : String) (ds : List RemoteDevice) (st : BuildState) :
    (ds.foldl (addDevice aid) st).accTable = st.accTable := by
  induction ds generalizing st with
  | nil => rfl
  | cons d t ih => simpa [List.foldl_cons] using ih (addDevice aid st d)

theorem devfold_integrity (aid : String) (ds : List RemoteDevice) (st : BuildState)
    (hacc : alistHasKey st.accounts_data aid = true)
    (hinv : ∀ kv ∈ st.devices_data, alistHasKey st.accounts_data kv.2.account_id = true) :
    ∀ kv ∈ (ds.foldl (addDevice aid) st).devices_data,
      alistHasKey (ds.foldl (addDevice aid) st).accounts_data kv.2.account_id = true := by
  induction ds generalizing st with
  | nil => simpa using hinv
  | cons d t ih =>
      simp only [List.foldl_cons]
      refine ih (addDevice aid st d) hacc ?_
      intro kv hkv
      rcases mem_alistInsert hkv with h | h
      · exact hinv kv h
      · subst h
        exact hacc

theorem devfold_devKeys (aid : String) (ds : List RemoteDevice) (st : BuildState)
    (base : AList RemoteDevice)
    (h : ∀ k, alistHasKey st.devTable k
            = (alistHasKey base k || alistHasKey st.devices_data k)) :
    ∀ k, alistHasKey (ds.foldl (addDevice aid) st).devTable k
       = (alistHasKey base k || alistHasKey (ds.foldl (addDevice aid) st).devices_data k) := by
  induction ds generalizing st with
  | nil => simpa using h
  | cons d t ih =>
      simp only [List.foldl_cons]
      refine ih (addDevice aid st d) ?_
      intro k
      show alistHasKey (alistInsert st.devTable d.device_id d) k
         = (alistHasKey base k
            || alistHasKey (alistInsert st.devices_data d.device_id (mkDeviceData aid d)) k)
      rw [alistHasKey_insert, alistHasKey_insert, h k]
      cases k == d.device_id <;> cases alistHasKey base k <;> simp

/-! ## Account-loop lemmas -/

theorem build_integrity (accs : List RemoteAccount) (st : BuildState)
    (hinv : ∀ kv ∈ st.devices_data, alistHasKey st.accounts_data kv.2.account_id = true) :
    ∀ kv ∈ (accs.foldl processAccount st).devices_data,
      alistHasKey (accs.foldl processAccount st).accounts_data kv.2.account_id = true := by
  induction accs generalizing st with
  | nil => simpa using hinv
  | cons a t ih =>
      simp only [List.foldl_cons]
      refine ih (processAccount st a) ?_
      unfold processAccount
      refine devfold_integrity a.user_id a.devices _ ?_ ?_
      · simp [alistHasKey_insert]
      · intro kv hkv
        rw [alistHasKey_insert]
        simp [hinv kv hkv]

theorem build_accKeys (accs : List RemoteAccount) (st : BuildState)
    (base : AList RemoteAccount)
    (h : ∀ k, alistHasKey st.accTable k
            = (alistHasKey base k || alistHasKey st.accounts_data k)) :
    ∀ k, alistHasKey (accs.foldl processAccount st).accTable k
       = (alistHasKey base k || alistHasKey (accs.foldl processAccount st).accounts_data k) := by
  induction accs generalizing st with
  | nil => simpa using h
  | cons a t ih =>
      simp only [List.foldl_cons]
      refine ih (processAccount st a) ?_
      intro k
      unfold processAccount
      rw [devfold_accTable, devfold_accounts]
      show alistHasKey (alistInsert st.accTable a.user_id a) k
         = (alistHasKey base k
            || alistHasKey (alistInsert st.accounts_data a.user_id (mkAccountData a)) k)
      rw [alistHasKey_insert, alistHasKey_insert, h k]
      cases k == a.user_id <;> cases alistHasKey base k <;> simp

theorem build_devKeys (accs : List RemoteAccount) (st : BuildState)
    (base : AList RemoteDevice)
    (h : ∀ k, alistHasKey st.devTable k
            = (alistHasKey base k || alistHasKey st.devices_data k)) :
    ∀ k, alistHasKey (accs.foldl processAccount st).devTable k
       = (alistHasKey base k || alistHasKey (accs.foldl processAccount st).devices_data k) := by
  induction accs generalizing st with
  | nil => simpa using h
  | cons a t ih =>
      simp only [List.foldl_cons]
      refine ih (processAccount st a) ?_
      unfold processAccount
      exact devfold_devKeys a.user_id a.devices _ base h

/-! ## Publish- and refresh-level lemmas -/

theorem publish_snd (c : Coordinator) (accs : List RemoteAccount) :
    (publish c accs).2 = .published (builtSnap c accs) := rfl

theorem publish_fst_flag (c : Coordinator) (accs : List RemoteAccount) :
    (publish c accs).1.is_retrying_auth = c.is_retrying_auth := rfl

theorem publish_fst_data (c : Coordinator) (accs : List RemoteAccount) :
    (publish c accs).1.data = some (builtSnap c accs) := rfl

theorem publish_accKeys (c : Coordinator) (accs : List RemoteAccount) :
    ∀ k, alistHasKey (publish c accs).1.accTable k
       = (alistHasKey c.accTable k || alistHasKey (builtSnap c accs).accounts k) := by
  intro k
  have h := build_accKeys accs
      { accounts_data := [], devices_data := [], accTable := c.accTable, devTable := c.devTable }
      c.accTable (by intro k'; simp [alistHasKey]) k
  simpa [publish, buildSnapshot, builtSnap] using h

theorem publish_devKeys (c : Coordinator) (accs : List RemoteAccount) :
    ∀ k, alistHasKey (publish c accs).1.devTable k
       = (alistHasKey c.devTable k || alistHasKey (builtSnap c accs).devices k) := by
  intro k
  have h := build_devKeys accs
      { accounts_data := [], devices_data := [], accTable := c.accTable, devTable := c.devTable }
      c.devTable (by intro k'; simp [alistHasKey]) k
  simpa [publish, buildSnapshot, builtSnap] using h

theorem builtSnap_integrity (c : Coordinator) (accs : List RemoteAccount) :
    ∀ kv ∈ (builtSnap c accs).devices,
      alistHasKey (builtSnap c accs).accounts kv.2.account_id = true := by
  intro kv hkv
  have h := build_integrity accs
      { accounts_data := [], devices_data := [], accTable := c.accTable, devTable := c.devTable }
      (by intro kv' hkv'; exact absurd hkv' (List.not_mem_nil kv'))
  exact h kv hkv

theorem updateDataCore_published {c : Coordinator} {f : FetchResult} {snap : Snapshot}
    (h : (updateDataCore c f).2 = .published snap) :
    ∃ accs, effectiveAccounts f = some accs ∧ snap = builtSnap c accs := by
  cases f with
  | success accs =>
      refine ⟨accs, rfl, ?_⟩
      rw [updateDataCore, publish_snd] at h
      exact (RefreshOutcome.published.inj h).symm
  | successNone =>
      refine ⟨[], rfl, ?_⟩
      rw [updateDataCore, publish_snd] at h
      exact (RefreshOutcome.published.inj h).symm
  | typeErrorNoneIter aft =>
      cases aft with
      | none =>
          refine ⟨[], rfl, ?_⟩
          rw [updateDataCore, publish_snd] at h
          exact (RefreshOutcome.published.inj h).symm
      | some accs =>
          refine ⟨accs, rfl, ?_⟩
          rw [updateDataCore, publish_snd] at h
          exact (RefreshOutcome.published.inj h).symm
  | typeErrorOther msg => exact absurd h (by simp [updateDataCore])
  | httpError msg =>
      exfalso
      rw [updateDataCore] at h
      split at h
      · split at h <;> exact RefreshOutcome.noConfusion h
      · exact RefreshOutcome.noConfusion h
  | otherError msg => exact absurd h (by simp [updateDataCore])

theorem updateDataCore_published_flag {c : Coordinator} {f : FetchResult} {snap : Snapshot}
    (h : (updateDataCore c f).2 = .published snap) :
    (updateDataCore c f).1.is_retrying_auth = c.is_retrying_auth := by
  cases f with
  | success accs => exact publish_fst_flag c accs
  | successNone => exact publish_fst_flag c []
  | typeErrorNoneIter aft =>
      cases aft with
      | none => exact publish_fst_flag c []
      | some accs => exact publish_fst_flag c accs
  | typeErrorOther msg => rfl
  | httpError msg =>
      exfalso
      rw [updateDataCore] at h
      split at h
      · split at h <;> exact RefreshOutcome.noConfusion h
      · exact RefreshOutcome.noConfusion h
  | otherError msg => rfl

theorem builtSnap_setApi (c : Coordinator) (b : Bool) (accs : List RemoteAccount) :
    builtSnap { c with apiSome := b } accs = builtSnap c accs := rfl

theorem refresh_published {c : Coordinator} {setupOk : Bool} {f : FetchResult}
    {snap : Snapshot} (h : (refresh c setupOk f).2.1 = .published snap) :
    ∃ accs, effectiveAccounts f = some accs ∧ snap = builtSnap c accs := by
  rw [refresh] at h
  split at h
  · exact updateDataCore_published h
  · split at h
    · have h2 := updateDataCore_published (c := { c with apiSome := true }) h
      simpa [builtSnap_setApi] using h2
    · exact absurd h (by simp)

theorem refresh_published_flag {c : Coordinator} {setupOk : Bool} {f : FetchResult}
    {snap : Snapshot} (h : (refresh c setupOk f).2.1 = .published snap) :
    (refresh c setupOk f).1.is_retrying_auth = c.is_retrying_auth := by
  rw [refresh] at h ⊢
  split at h <;> rename_i hc
  · rw [if_pos hc]
    exact updateDataCore_published_flag h
  · rw [if_neg hc]
    split at h <;> rename_i hs
    · rw [if_pos hs]
      exact updateDataCore_published_flag (c := { c with apiSome := true }) h
    · exact absurd h (by simp)

/-! ## Platform-derivation lemmas -/

theorem get_platform_from_os_ne_ALL (s : String) :
    get_platform_from_os s ≠ some .ALL := by
  rw [get_platform_from_os]
  split
  · simp
  · split
    · simp
    · split <;> simp

theorem mem_setAdd {l : List OverrideTarget} {p q : OverrideTarget} :
    p ∈ setAdd l q ↔ p ∈ l ∨ p = q := by
  rw [setAdd]
  split
  · rename_i hq
    constructor
    · exact Or.inl
    · rintro (h | rfl)
      · exact h
      · exact hq
  · simp

theorem mem_addPlatform {aid : String} {acc : List OverrideTarget}
    {kv : String × DeviceData} {p : OverrideTarget} :
    p ∈ addPlatform aid acc kv ↔
      p ∈ acc ∨ (kv.2.account_id = aid ∧ get_platform_from_os kv.2.os_name = some p) := by
  rw [addPlatform]
  by_cases h : kv.2.account_id = aid
  · simp only [h, beq_self_eq_true, if_true]
    cases hm : get_platform_from_os kv.2.os_name with
    | none => simp [hm]
    | some plat => simp [hm, mem_setAdd, eq_comm]
  · simp [beq_iff_eq, h]

theorem platforms_fold_mem (aid : String) (l : List (String × DeviceData))
    (acc : List OverrideTarget) (p : OverrideTarget) :
    p ∈ l.foldl (addPlatform aid) acc ↔
      p ∈ acc ∨ ∃ kv ∈ l, kv.2.account_id = aid ∧
        get_platform_from_os kv.2.os_name = some p := by
  induction l generalizing acc with
  | nil => simp
  | cons kv t ih =>
      simp only [List.foldl_cons, ih, mem_addPlatform, List.mem_cons]
      constructor
      · rintro ((h | h) | ⟨kv', hkv', h⟩)
        · exact Or.inl h
        · exact Or.inr ⟨kv, Or.inl rfl, h⟩
        · exact Or.inr ⟨kv', Or.inr hkv', h⟩
      · rintro (h | ⟨kv', (rfl | hkv'), h⟩)
        · exact Or.inl (Or.inl h)
        · exact Or.inl (Or.inr h)
        · exact Or.inr ⟨kv', hkv', h⟩

/-! ## Claims -/

/-- C1: the spec requires screen-time fields arriving from the remote
client in milliseconds to be converted to minutes by floor division before
being stored, with 90000 ms stored as 1 and 59000 ms as 0.  The code stores
the raw remote values unchanged: after a successful refresh fetching an
account reporting 90000 ms of usage and a device reporting 59000 ms, the
snapshot holds 90000 and 59000, not 1 and 0, even though the sensor layer
labels the stored values as minutes. -/
theorem C1_screen_time_stored_raw :
    (alistLookup sampleSnap.accounts "acc1").map (fun a => a.today_screentime_usage)
      = some 90000 ∧
    (alistLookup sampleSnap.devices "dev1").map (fun d => d.today_time_used)
      = some 59000 ∧
    (alistLookup sampleSnap.accounts "acc1").map (fun a => a.today_screentime_usage)
      ≠ some 1 ∧
    (alistLookup sampleSnap.devices "dev1").map (fun d => d.today_time_used)
      ≠ some 0 := by
  exact ⟨by decide, by decide, by decide, by decide⟩

/-- C2: with the API client initialized, a refresh in which the remote
client leaves the account collection as None — directly, or through the
NoneType-not-iterable TypeError — succeeds and publishes a snapshot whose
accounts and devices maps are both empty. -/
theorem C2_null_collection_empty_snapshot (c : Coordinator) (setupOk : Bool)
    (h : c.apiSome = true) :
    (refresh c setupOk .successNone).2.1
      = .published { accounts := [], devices := [] } ∧
    (refresh c setupOk (.typeErrorNoneIter none)).2.1
      = .published { accounts := [], devices := [] } ∧
    (refresh c setupOk .successNone).1.data
      = some { accounts := [], devices := [] } ∧
    (refresh c setupOk (.typeErrorNoneIter none)).1.data
      = some { accounts := [], devices := [] } := by
  have hr1 : refresh c setupOk .successNone
      = ((publish c []).1, (publish c []).2, [.update]) := by
    rw [refresh, if_pos h]; rfl
  have hr2 : refresh c setupOk (.typeErrorNoneIter none)
      = ((publish c []).1, (publish c []).2, [.update]) := by
    rw [refresh, if_pos h]; rfl
  rw [hr1, hr2]
  exact ⟨rfl, rfl, rfl, rfl⟩

/-- C2 witness at a concrete coordinator. -/
theorem C2_witness :
    (refresh sampleCoordinator true .successNone).2.1
      = .published { accounts := [], devices := [] } ∧
    (refresh sampleCoordinator true (.typeErrorNoneIter none)).2.1
      = .published { accounts := [], devices := [] } ∧
    (refresh sampleCoordinator true .successNone).1.data
      = some { accounts := [], devices := [] } ∧
    (refresh sampleCoordinator true (.typeErrorNoneIter none)).1.data
      = some { accounts := [], devices := [] } :=
  C2_null_collection_empty_snapshot sampleCoordinator true rfl

/-- C3: a refresh failing with an `HttpException` whose text looks like an
authentication failure raises `ConfigEntryAuthFailed` and sets the
auth-retry flag when the flag is clear, and raises `UpdateFailed` when the
flag is already set. -/
theorem C3_auth_escalation (c : Coordinator) (setupOk : Bool) (msg : String)
    (hapi : c.apiSome = true) (hmsg : isAuthErrorMsg msg = true) :
    (c.is_retrying_auth = false →
      (refresh c setupOk (.httpError msg)).2.1
        = .authRequired ERROR_TOKEN_EXPIRED ∧
      (refresh c setupOk (.httpError msg)).1.is_retrying_auth = true) ∧
    (c.is_retrying_auth = true →
      (refresh c setupOk (.httpError msg)).2.1
        = .updateFailed ("Authentication failed: " ++ msg)) := by
  have hr : refresh c setupOk (.httpError msg)
      = ((updateDataCore c (.httpError msg)).1,
         (updateDataCore c (.httpError msg)).2, [.update]) := by
    rw [refresh, if_pos hapi]
  rw [hr]
  constructor
  · intro hflag
    constructor <;> simp [updateDataCore, hmsg, hflag]
  · intro hflag
    simp [updateDataCore, hmsg, hflag]

/-- C3 witness: a 401 message escalates once, then degrades. -/
theorem C3_witness :
    (refresh sampleCoordinator true (.httpError "Error 401")).2.1
      = .authRequired ERROR_TOKEN_EXPIRED ∧
    (refresh sampleCoordinator true (.httpError "Error 401")).1.is_retrying_auth
      = true ∧
    (refresh retryingCoordinator true (.httpError "Error 401")).2.1
      = .updateFailed ("Authentication failed: Error 401") := by
  have h1 := C3_auth_escalation sampleCoordinator true "Error 401" rfl (by decide)
  have h2 := C3_auth_escalation retryingCoordinator true "Error 401" rfl (by decide)
  exact ⟨(h1.1 rfl).1, (h1.1 rfl).2, h2.2 rfl⟩

/-- C4 counterexample: a successful refresh does not clear the auth-retry
flag.  A coordinator whose flag is set refreshes successfully, keeps the
flag set, and a following authentication error raises the generic
update-failed signal, not the auth-required signal — the claim says the
flag would have been cleared and the auth-required signal raised again. -/
theorem C4_counterexample_flag_not_cleared :
    (refresh retryingCoordinator true (.success [])).2.1
      = .published { accounts := [], devices := [] } ∧
    (refresh retryingCoordinator true (.success [])).1.is_retrying_auth = true ∧
    (refresh (refresh retryingCoordinator true (.success [])).1 true
        (.httpError "401")).2.1
      = .updateFailed ("Authentication failed: 401") := by
  exact ⟨by decide, by decide, by decide⟩

/-- C4 amended: every refresh that publishes a snapshot leaves the
auth-retry flag exactly as it was (the flag is only initialized to false
when the coordinator object is created). -/
theorem C4_success_preserves_retry_flag (c : Coordinator) (setupOk : Bool)
    (fetch : FetchResult) (snap : Snapshot)
    (h : (refresh c setupOk fetch).2.1 = .published snap) :
    (refresh c setupOk fetch).1.is_retrying_auth = c.is_retrying_auth :=
  refresh_published_flag h

/-- C4 witness at a concrete successful refresh. -/
theorem C4_witness :
    (refresh retryingCoordinator true (.success [sampleAccount1])).1.is_retrying_auth
      = retryingCoordinator.is_retrying_auth :=
  C4_success_preserves_retry_flag retryingCoordinator true (.success [sampleAccount1])
    (builtSnap retryingCoordinator [sampleAccount1]) rfl

/-- C5 counterexample: `async_approve_request` and `async_deny_request`
contact the remote client for a request id that is absent from the handle
tables (which are empty here); the claim says no remote call would be made
for any mutation whose target id is absent. -/
theorem C5_counterexample_deny_contacts_remote :
    sampleCoordinator.accTable = [] ∧
    sampleCoordinator.devTable = [] ∧
    (async_deny_request sampleCoordinator "req1" true).2
      = [.denyPendingCall "req1", .requestRefresh] ∧
    (async_approve_request sampleCoordinator "req1" 30 true).2
      = [.approvePendingCall "req1" 30, .requestRefresh] := by
  exact ⟨rfl, rfl, rfl, rfl⟩

/-- C5 amended: block and unblock fail with a ValueError and make no remote
call when the account id is absent from the handle table; approve and deny
do not consult the handle table at all — they fail fast only when the API
client is uninitialized and otherwise always issue the remote call for the
given request id. -/
theorem C5_not_found_behavior (c : Coordinator) (account_id : String)
    (platform : OverrideTarget) (d : Option Nat) (now : Nat) (remoteOk : Bool)
    (request_id : String) (extension_time : Nat)
    (hb : alistHasKey c.accTable account_id = false) :
    async_block_platform c account_id platform d now remoteOk
      = (.valueError ("Account " ++ account_id ++ " not found"), []) ∧
    async_unblock_platform c account_id platform now remoteOk
      = (.valueError ("Account " ++ account_id ++ " not found"), []) ∧
    (c.apiSome = false →
      async_approve_request c request_id extension_time remoteOk
        = (.valueError "API not initialized", []) ∧
      async_deny_request c request_id remoteOk
        = (.valueError "API not initialized", [])) ∧
    (c.apiSome = true →
      (async_approve_request c request_id extension_time remoteOk).2.head?
        = some (.approvePendingCall request_id extension_time) ∧
      (async_deny_request c request_id remoteOk).2.head?
        = some (.denyPendingCall request_id)) := by
  refine ⟨?_, ?_, ?_, ?_⟩
  · simp [async_block_platform, hb]
  · simp [async_unblock_platform, hb]
  · intro hapi
    constructor <;> simp [async_approve_request, async_deny_request, hapi]
  · intro hapi
    constructor <;> cases remoteOk <;>
      simp [async_approve_request, async_deny_request, hapi]

/-- C5 witness: a missing account id on block, and a deny that still calls
the remote client. -/
theorem C5_witness :
    async_block_platform sampleCoordinator "ghost" .WINDOWS none 0 true
      = (.valueError ("Account " ++ "ghost" ++ " not found"), []) ∧
    (async_deny_request sampleCoordinator "req9" true).2.head?
      = some (.denyPendingCall "req9") := by
  have h := C5_not_found_behavior sampleCoordinator "ghost" .WINDOWS none 0 true
    "req9" 0 (by decide)
  exact ⟨h.1, (h.2.2.2 rfl).2⟩

/-- C6: referential integrity — every device record of a snapshot published
by a successful refresh carries an `account_id` that is a key of the
snapshot's accounts map. -/
theorem C6_referential_integrity (c : Coordinator) (setupOk : Bool)
    (fetch : FetchResult) (snap : Snapshot)
    (h : (refresh c setupOk fetch).2.1 = .published snap)
    (kv : String × DeviceData) (hkv : kv ∈ snap.devices) :
    alistHasKey snap.accounts kv.2.account_id = true := by
  obtain ⟨accs, -, rfl⟩ := refresh_published h
  exact builtSnap_integrity c accs kv hkv

/-- C6 witness on the sample refresh. -/
theorem C6_witness :
    alistHasKey sampleSnap.accounts (mkDeviceData "acc1" sampleDevice1).account_id
      = true :=
  C6_referential_integrity sampleCoordinator true (.success [sampleAccount1])
    sampleSnap rfl ("dev1", mkDeviceData "acc1" sampleDevice1) (by decide)

/-- C7 counterexample: after `async_cleanup` the API handle is gone, yet a
refresh request does not fail fast — it calls `FamilySafety.create` (and on
success `update`) against the remote service; the claim says no remote call
would ever be made. -/
theorem C7_counterexample_refresh_after_shutdown_calls_remote :
    (async_cleanup sampleRefresh.1).apiSome = false ∧
    (refresh (async_cleanup sampleRefresh.1) true (.success [])).2.2
      = [.create, .update] ∧
    (refresh (async_cleanup sampleRefresh.1) false (.success [])).2.2
      = [.create] := by
  exact ⟨rfl, rfl, rfl⟩

/-- C7 amended: shutdown releases the API handle and clears both handle
tables, and is idempotent; but a refresh against a coordinator without an
API handle re-initializes the remote client — its first outbound call is
`create` — instead of failing fast. -/
theorem C7_shutdown_then_reinit (c : Coordinator) (setupOk : Bool)
    (fetch : FetchResult) :
    (async_cleanup c).apiSome = false ∧
    (async_cleanup c).accTable = [] ∧
    (async_cleanup c).devTable = [] ∧
    async_cleanup (async_cleanup c) = async_cleanup c ∧
    (c.apiSome = false →
      (refresh c setupOk fetch).2.2.head? = some .create) := by
  refine ⟨rfl, rfl, rfl, rfl, ?_⟩
  intro h
  rw [refresh, if_neg (by simp [h])]
  cases setupOk <;> simp

/-- C7 witness: the first call of a post-shutdown refresh is create. -/
theorem C7_witness :
    (refresh (async_cleanup sampleRefresh.1) true (.httpError "boom")).2.2.head?
      = some RemoteCall.create :=
  (C7_shutdown_then_reinit (async_cleanup sampleRefresh.1) true
    (.httpError "boom")).2.2.2.2 rfl

/-- C8 counterexample: the handle tables are not invalidated on refresh.  A
coordinator holding a stale entry refreshes successfully with zero
accounts; the published snapshot is empty, yet the stale account and device
handles are still present — the claim says the table would contain exactly
the new snapshot's ids. -/
theorem C8_counterexample_stale_handles :
    (refresh staleCoordinator true (.success [])).2.1
      = .published { accounts := [], devices := [] } ∧
    alistHasKey (refresh staleCoordinator true (.success [])).1.accTable "stale"
      = true ∧
    alistHasKey (refresh staleCoordinator true (.success [])).1.devTable "staledev"
      = true := by
  exact ⟨by decide, by decide, by decide⟩

/-- C8 amended: a successful refresh only grows the handle tables — after
it, an id is a key of a handle table exactly when it was a key before or is
an id of the newly published snapshot; stale entries are retained until
shutdown. -/
theorem C8_handle_table_grows (c : Coordinator) (setupOk : Bool)
    (accs : List RemoteAccount) (h : c.apiSome = true) :
    (refresh c setupOk (.success accs)).2.1 = .published (builtSnap c accs) ∧
    (∀ k, alistHasKey (refresh c setupOk (.success accs)).1.accTable k
        = (alistHasKey c.accTable k
           || alistHasKey (builtSnap c accs).accounts k)) ∧
    (∀ k, alistHasKey (refresh c setupOk (.success accs)).1.devTable k
        = (alistHasKey c.devTable k
           || alistHasKey (builtSnap c accs).devices k)) := by
  have hr : refresh c setupOk (.success accs)
      = ((publish c accs).1, (publish c accs).2, [.update]) := by
    rw [refresh, if_pos h]; rfl
  rw [hr]
  exact ⟨publish_snd c accs, publish_accKeys c accs, publish_devKeys c accs⟩

/-- C8 witness: the stale key survives and the fetched key appears. -/
theorem C8_witness :
    alistHasKey (refresh staleCoordinator true (.success [sampleAccount1])).1.accTable
      "stale" = true ∧
    alistHasKey (refresh staleCoordinator true (.success [sampleAccount1])).1.accTable
      "acc1" = true := by
  have h := C8_handle_table_grows staleCoordinator true [sampleAccount1] rfl
  constructor
  · rw [h.2.1 "stale"]; decide
  · rw [h.2.1 "acc1"]; decide

/-- C9: every mutation whose remote call succeeds issues exactly one
refresh request, as its final action before returning; a mutation whose
remote call fails — or that never reaches the remote — issues none. -/
theorem C9_mutation_refresh_counts (c : Coordinator) (account_id : String)
    (platform : OverrideTarget) (d : Option Nat) (now : Nat)
    (request_id : String) (extension_time : Nat) :
    (alistHasKey c.accTable account_id = true →
      countRefreshRequests (async_block_platform c account_id platform d now true).2
        = 1 ∧
      countRefreshRequests (async_block_platform c account_id platform d now false).2
        = 0 ∧
      (async_block_platform c account_id platform d now true).2.getLast?
        = some .requestRefresh ∧
      countRefreshRequests (async_unblock_platform c account_id platform now true).2
        = 1 ∧
      countRefreshRequests (async_unblock_platform c account_id platform now false).2
        = 0 ∧
      (async_unblock_platform c account_id platform now true).2.getLast?
        = some .requestRefresh) ∧
    (c.apiSome = true →
      countRefreshRequests (async_approve_request c request_id extension_time true).2
        = 1 ∧
      countRefreshRequests (async_approve_request c request_id extension_time false).2
        = 0 ∧
      countRefreshRequests (async_deny_request c request_id true).2 = 1 ∧
      countRefreshRequests (async_deny_request c request_id false).2 = 0) ∧
    (alistHasKey c.accTable account_id = false →
      countRefreshRequests (async_block_platform c account_id platform d now true).2
        = 0 ∧
      countRefreshRequests (async_unblock_platform c account_id platform now true).2
        = 0) ∧
    (c.apiSome = false →
      countRefreshRequests (async_approve_request c request_id extension_time true).2
        = 0 ∧
      countRefreshRequests (async_deny_request c request_id true).2 = 0) := by
  refine ⟨?_, ?_, ?_, ?_⟩ <;> intro h <;>
    simp [async_block_platform, async_unblock_platform, async_approve_request,
      async_deny_request, h, countRefreshRequests, isRefreshReq, List.countP_cons]

/-- C9 witness: one refresh request after a successful block, none after a
failed deny. -/
theorem C9_witness :
    countRefreshRequests
      (async_block_platform sampleRefresh.1 "acc1" .WINDOWS (some 30) 0 true).2 = 1 ∧
    countRefreshRequests (async_deny_request sampleCoordinator "req9" false).2 = 0 := by
  have h1 := C9_mutation_refresh_counts sampleRefresh.1 "acc1" .WINDOWS (some 30) 0
    "req9" 0
  have h2 := C9_mutation_refresh_counts sampleCoordinator "acc1" .WINDOWS none 0
    "req9" 0
  exact ⟨(h1.1 (by decide)).1, (h2.2.1 rfl).2.2.2⟩

/-- C10: `get_platforms_for_account` returns the empty set before any
snapshot is published and otherwise exactly the platforms derived from the
account's devices; the derivation lowers the OS name and matches substrings
in the fixed order windows, xbox, android/ios, yielding nothing for an
unrecognized OS, so the result can only contain WINDOWS, XBOX and MOBILE. -/
theorem C10_platform_derivation (c : Coordinator) (account_id : String) :
    (c.data = none → get_platforms_for_account c account_id = []) ∧
    (∀ p ∈ get_platforms_for_account c account_id,
      p = .WINDOWS ∨ p = .XBOX ∨ p = .MOBILE) ∧
    (∀ snap, c.data = some snap →
      ∀ p, p ∈ get_platforms_for_account c account_id ↔
        ∃ kv ∈ snap.devices, kv.2.account_id = account_id ∧
          get_platform_from_os kv.2.os_name = some p) ∧
    (∀ s, (strContains (strLower s) "windows" = true →
            get_platform_from_os s = some .WINDOWS) ∧
          (strContains (strLower s) "windows" = false →
            strContains (strLower s) "xbox" = true →
            get_platform_from_os s = some .XBOX) ∧
          (strContains (strLower s) "windows" = false →
            strContains (strLower s) "xbox" = false →
            (strContains (strLower s) "android" = true ∨
             strContains (strLower s) "ios" = true) →
            get_platform_from_os s = some .MOBILE) ∧
          (strContains (strLower s) "windows" = false →
            strContains (strLower s) "xbox" = false →
            strContains (strLower s) "android" = false →
            strContains (strLower s) "ios" = false →
            get_platform_from_os s = none)) := by
  refine ⟨?_, ?_, ?_, ?_⟩
  · intro h
    simp [get_platforms_for_account, h]
  · intro p hp
    rcases hd : c.data with _ | snap
    · rw [get_platforms_for_account, hd] at hp
      exact absurd hp (List.not_mem_nil p)
    · rw [get_platforms_for_account, hd] at hp
      rw [platforms_fold_mem] at hp
      rcases hp with h | ⟨kv, hkv, hacc, hplat⟩
      · exact absurd h (List.not_mem_nil p)
      · cases p with
        | WINDOWS => exact Or.inl rfl
        | XBOX => exact Or.inr (Or.inl rfl)
        | MOBILE => exact Or.inr (Or.inr rfl)
        | ALL => exact absurd hplat (get_platform_from_os_ne_ALL kv.2.os_name)
  · intro snap hd p
    rw [get_platforms_for_account, hd, platforms_fold_mem]
    simp
  · intro s
    refine ⟨?_, ?_, ?_, ?_⟩
    · intro h1
      simp [get_platform_from_os, h1]
    · intro h1 h2
      simp [get_platform_from_os, h1, h2]
    · intro h1 h2 h3
      rcases h3 with h3 | h3 <;> simp [get_platform_from_os, h1, h2, h3]
    · intro h1 h2 h3 h4
      simp [get_platform_from_os, h1, h2, h3, h4]

/-- C10 witness: no data means no platforms; a Windows device of the sample
snapshot contributes WINDOWS. -/
theorem C10_witness :
    get_platforms_for_account initCoordinator "acc1" = [] ∧
    OverrideTarget.WINDOWS ∈ get_platforms_for_account sampleRefresh.1 "acc1" := by
  have h0 := C10_platform_derivation initCoordinator "acc1"
  have h1 := C10_platform_derivation sampleRefresh.1 "acc1"
  refine ⟨h0.1 rfl, ?_⟩
  refine (h1.2.2.1 sampleSnap rfl OverrideTarget.WINDOWS).mpr ?_
  exact ⟨("dev1", mkDeviceData "acc1" sampleDevice1), by decide, by decide, by decide⟩

end FamilySafety
